import Mathlib

/-!
Verification of the rate-calculation engine of the salem invoice system.

The JavaScript sources under src/ are shallowly embedded: numbers become ℚ,
JavaScript objects become structures, thrown errors become `Except.error`
with a typed error value, and the insertion-ordered `Map` used for charge
aggregation becomes an association list with JavaScript `Map.set` update
semantics.  The dynamic property lookup `tripData[parameter]` becomes an
explicit `TripData.lookup`.  `parseFloat` / numeric coercion is modelled by
`parseNum`; an unparsable string is `none`, and every JavaScript comparison
against `NaN` (which is false) is modelled by matching on `none`.
-/

deriving instance DecidableEq for Except

namespace Salem

/-- Whitespace trim on both ends of a character list (JavaScript
`String.prototype.trim`, also the implicit trim of `parseFloat`). -/
def trimChars (l : List Char) : List Char :=
  ((l.dropWhile Char.isWhitespace).reverse.dropWhile Char.isWhitespace).reverse

/-- JavaScript `String.prototype.split(",")` on a character list. -/
def splitOnComma : List Char → List (List Char)
  | [] => [[]]
  | c :: cs =>
    let rest := splitOnComma cs
    if c == ',' then [] :: rest
    else
      match rest with
      | [] => [[c]]
      | r :: rs => (c :: r) :: rs

/-- Value of a nonempty all-digit character list, `none` otherwise. -/
def digitsVal : List Char → Option Nat
  | [] => none
  | cs =>
    if cs.all Char.isDigit then
      some (cs.foldl (fun n c => n * 10 + (c.toNat - 48)) 0)
    else none

/-- Decimal numeral parser on a character list: optional sign, digits,
optionally a dot and more digits.  `none` models the JavaScript result
`NaN` for an unparsable input. -/
def parseNumChars (t : List Char) : Option ℚ :=
  let (neg, u) :=
    match t with
    | '-' :: rest => (true, rest)
    | '+' :: rest => (false, rest)
    | _ => (false, t)
  let mag : Option ℚ :=
    match u.span (fun c => !(c == '.')) with
    | (intPart, []) => (digitsVal intPart).map (fun n => (n : ℚ))
    | (intPart, _ :: fracPart) =>
      match digitsVal intPart, digitsVal fracPart with
      | some n, some m => some ((n : ℚ) + (m : ℚ) / (10 : ℚ) ^ fracPart.length)
      | _, _ => none
  mag.map (fun q => if neg then -q else q)

/-- Numeric reading of a string: models `parseFloat(s)` (and the numeric
coercion of a numeric-looking string).  `none` stands for `NaN`. -/
def parseNum (s : String) : Option ℚ :=
  parseNumChars (trimChars s.toList)

/-- Substring test on character lists: JavaScript
`hay.includes(needle)`. -/
def containsSub (needle : List Char) : List Char → Bool
  | [] => needle == ([] : List Char)
  | c :: t => ((c :: t).take needle.length == needle) || containsSub needle t

/-- The typed calculation failures.  The source throws plain `Error`
objects; the spec names them, and each constructor corresponds to one
`throw` site in the source. -/
inductive CalcError where
  | conditionsNotMet
  | unsupportedRateType (t : String)
  | unsupportedOperator (op : String)
  | noApplicableRule (tripId : String)
deriving DecidableEq

/-- The `RateType` enum.  `UNKNOWN` stands for any tag outside the
enumeration, hitting the `default` branch of the rate-type switch. -/
inductive RateType where
  | FIXED
  | PER_KM
  | PER_KG
  | PER_CBM
  | SLAB_BASED
  | ZONE_BASED
  | UNKNOWN (s : String)
deriving DecidableEq

/-- The `ConditionOperator` enum.  `UNKNOWN` stands for any tag outside
the enumeration, hitting the `default` branch of the operator switch. -/
inductive ConditionOperator where
  | EQUALS
  | NOT_EQUALS
  | GREATER_THAN
  | LESS_THAN
  | GREATER_THAN_EQUAL
  | LESS_THAN_EQUAL
  | BETWEEN
  | IN
  | NOT_IN
  | CONTAINS
  | UNKNOWN (s : String)
deriving DecidableEq

/-- A JavaScript value stored in a trip-record field: a number or a
string. -/
inductive Value where
  | num (q : ℚ)
  | str (s : String)
deriving DecidableEq

/-- Numeric view of a field value: a number as itself, a string through
numeric coercion.  `none` stands for `NaN`; any comparison against it is
false. -/
def Value.toNum : Value → Option ℚ
  | .num q => some q
  | .str s => parseNum s

/-- JavaScript `toString()` of a field value, used by the membership and
substring operators.  The claims exercise it only on strings and integers;
a non-integral number is rendered as numerator/denominator, which no claim
relies on. -/
def Value.asString : Value → String
  | .num q => if q.den == 1 then toString q.num else toString q.num ++ "/" ++ toString q.den
  | .str s => s

/-- The trip record: the typed fields the engine reads directly, plus the
open bag `params` of further fields reachable only through dynamic
lookup. -/
structure TripData where
  id : String
  origin : String
  destination : String
  vehicleType : String
  distance : ℚ
  weight : ℚ
  volume : ℚ
  params : List (String × Value)
deriving DecidableEq

/-- Dynamic property access `tripData[k]`: the typed fields are visible to
it alongside the open bag; `none` models an `undefined` result. -/
def TripData.lookup (td : TripData) (k : String) : Option Value :=
  if k == "id" then some (.str td.id)
  else if k == "origin" then some (.str td.origin)
  else if k == "destination" then some (.str td.destination)
  else if k == "vehicleType" then some (.str td.vehicleType)
  else if k == "distance" then some (.num td.distance)
  else if k == "weight" then some (.num td.weight)
  else if k == "volume" then some (.num td.volume)
  else (td.params.find? (fun p => p.1 == k)).map Prod.snd

/-- One condition of a rate item or additional charge
(`RateCondition` in src/models/rate_item.js). -/
structure RateCondition where
  parameter : String
  operator : ConditionOperator
  value : String
deriving DecidableEq

/-- JavaScript loose equality `paramValue == operand` for the shapes that
occur here: number against string coerces the string to a number
(`NaN` compares false); string against string is plain string equality. -/
def looseEq (v : Value) (operand : String) : Bool :=
  match v with
  | .num q =>
    match parseNum operand with
    | some q2 => q == q2
    | none => false
  | .str s => s == operand

/-- Numeric comparison of a field value against a parsed operand; false
whenever either side is `NaN` (`none`). -/
def numComp (v : Value) (operand : String) (cmp : ℚ → ℚ → Bool) : Bool :=
  match v.toNum, parseNum operand with
  | some a, some b => cmp a b
  | _, _ => false

/-- `RateCondition.evaluate` (src/models/rate_item.js, lines 149-195):
absent parameter evaluates to false; otherwise dispatch on the operator;
an operator outside the enumeration throws. -/
def RateCondition.evaluate (c : RateCondition) (td : TripData) : Except CalcError Bool :=
  match td.lookup c.parameter with
  | none => .ok false
  | some paramValue =>
    match c.operator with
    | .EQUALS => .ok (looseEq paramValue c.value)
    | .NOT_EQUALS => .ok (!looseEq paramValue c.value)
    | .GREATER_THAN => .ok (numComp paramValue c.value (fun a b => decide (b < a)))
    | .LESS_THAN => .ok (numComp paramValue c.value (fun a b => decide (a < b)))
    | .GREATER_THAN_EQUAL => .ok (numComp paramValue c.value (fun a b => decide (b ≤ a)))
    | .LESS_THAN_EQUAL => .ok (numComp paramValue c.value (fun a b => decide (a ≤ b)))
    | .BETWEEN =>
      let pieces := (splitOnComma c.value.toList).map (fun l => parseNumChars (trimChars l))
      let mn := pieces.getD 0 none
      let mx := pieces.getD 1 none
      .ok (match paramValue.toNum, mn, mx with
           | some a, some lo, some hi => decide (lo ≤ a) && decide (a ≤ hi)
           | _, _, _ => false)
    | .IN =>
      let values := (splitOnComma c.value.toList).map trimChars
      .ok (values.contains paramValue.asString.toList)
    | .NOT_IN =>
      let excludedValues := (splitOnComma c.value.toList).map trimChars
      .ok (!excludedValues.contains paramValue.asString.toList)
    | .CONTAINS => .ok (containsSub c.value.toList paramValue.asString.toList)
    | .UNKNOWN s => .error (.unsupportedOperator s)

/-- `conditions.every(condition => condition.evaluate(tripData))`:
short-circuiting conjunction in which a thrown evaluation error
propagates. -/
def evalAll : List RateCondition → TripData → Except CalcError Bool
  | [], _ => .ok true
  | c :: cs, td =>
    match c.evaluate td with
    | .error e => .error e
    | .ok false => .ok false
    | .ok true => evalAll cs td

/-- `AdditionalCharge` (src/models/additional_charge.js): name, kind tag,
magnitude `value`, percentage flag, gating conditions.  `rateItemId` and the
generated `id` do not enter the calculation and are omitted. -/
structure AdditionalCharge where
  name : String
  chargeKindTag : String
  value : ℚ
  isPercentage : Bool
  conditions : List RateCondition
deriving DecidableEq

/-- `AdditionalCharge.calculate(baseAmount, tripData)` (lines 29-44): all
conditions must hold, a false one yields 0, a thrown evaluation error
propagates; then percentage-of-base or absolute amount. -/
def AdditionalCharge.calculate (ac : AdditionalCharge) (baseAmount : ℚ) (td : TripData) :
    Except CalcError ℚ :=
  match evalAll ac.conditions td with
  | .error e => .error e
  | .ok false => .ok 0
  | .ok true =>
    if ac.isPercentage then .ok (baseAmount * ac.value / 100)
    else .ok ac.value

/-- `FuelAdjustment` (src/services/rate_card_service.js, lines 263-295). -/
structure FuelAdjustment where
  enabled : Bool
  basePrice : ℚ
  currentPrice : ℚ
  adjustmentFactor : ℚ
deriving DecidableEq

/-- `FuelAdjustment.calculate(baseRate)` (lines 281-294): zero when
disabled or the reference price is zero, otherwise the percentage change
of the fuel price scaled by the adjustment factor. -/
def FuelAdjustment.calculate (fa : FuelAdjustment) (baseRate : ℚ) : ℚ :=
  if !fa.enabled || fa.basePrice == 0 then 0
  else
    let priceChange := fa.currentPrice - fa.basePrice
    let percentageChange := priceChange / fa.basePrice * 100
    baseRate * percentageChange * fa.adjustmentFactor / 100

/-- `ChargeCalculation` (src/models/charge_calculation.js).  The
insertion-ordered JavaScript `Map`s become association lists; `totalCharge`
is the field the constructor fills in once. -/
structure ChargeCalculation where
  baseCharge : ℚ
  additionalCharges : List (String × ℚ)
  fuelAdjustment : ℚ
  discounts : List (String × ℚ)
  surcharges : List (String × ℚ)
  totalCharge : ℚ
deriving DecidableEq

/-- `ChargeCalculation.calculateTotalCharge` (lines 26-48): start from the
base charge, add each additional charge, add the fuel adjustment, add each
surcharge, subtract each discount, in iteration order. -/
def calculateTotalCharge (baseCharge : ℚ) (additionalCharges : List (String × ℚ))
    (fuelAdjustment : ℚ) (discounts surcharges : List (String × ℚ)) : ℚ :=
  let t1 := additionalCharges.foldl (fun t p => t + p.2) baseCharge
  let t2 := t1 + fuelAdjustment
  let t3 := surcharges.foldl (fun t p => t + p.2) t2
  discounts.foldl (fun t p => t - p.2) t3

/-- The `ChargeCalculation` constructor (lines 5-20): stores the parts and
computes `totalCharge` once. -/
def mkChargeCalculation (baseCharge : ℚ) (additionalCharges : List (String × ℚ))
    (fuelAdjustment : ℚ) (discounts surcharges : List (String × ℚ)) : ChargeCalculation :=
  ⟨baseCharge, additionalCharges, fuelAdjustment, discounts, surcharges,
   calculateTotalCharge baseCharge additionalCharges fuelAdjustment discounts surcharges⟩

/-- The object literal returned by `ChargeCalculation.breakdown`. -/
structure ChargeBreakdown where
  baseCharge : ℚ
  additionalCharges : List (String × ℚ)
  fuelAdjustment : ℚ
  discounts : List (String × ℚ)
  surcharges : List (String × ℚ)
  totalCharge : ℚ
deriving DecidableEq

/-- `ChargeCalculation.breakdown` (lines 54-78): flattens each map in
entry order and copies the cached `totalCharge` field, recomputing
nothing. -/
def ChargeCalculation.breakdown (cc : ChargeCalculation) : ChargeBreakdown :=
  ⟨cc.baseCharge, cc.additionalCharges, cc.fuelAdjustment, cc.discounts,
   cc.surcharges, cc.totalCharge⟩

/-- `RateItem` (src/models/rate_item.js, lines 4-31).  `id`, `rateCardId`
and `serviceCode` do not enter the charge calculation and are omitted. -/
structure RateItem where
  origin : String
  destination : String
  vehicleType : String
  rateType : RateType
  baseRate : ℚ
  minCharge : ℚ
  additionalCharges : List AdditionalCharge
  conditions : List RateCondition
  fuelAdjustment : FuelAdjustment
deriving DecidableEq

/-- The rate-type switch of `RateItem.calculateCharge` (lines 49-80):
the raw base charge per rate type, or the `default` throw. -/
def rateBase (item : RateItem) (td : TripData) : Except CalcError ℚ :=
  match item.rateType with
  | .FIXED => .ok item.baseRate
  | .PER_KM => .ok (item.baseRate * td.distance)
  | .PER_KG => .ok (item.baseRate * td.weight)
  | .PER_CBM => .ok (item.baseRate * td.volume)
  | .SLAB_BASED => .ok item.baseRate
  | .ZONE_BASED => .ok item.baseRate
  | .UNKNOWN s => .error (.unsupportedRateType s)

/-- JavaScript `Map.prototype.set` on an association list: an existing key
keeps its position and gets the new value, a new key is appended. -/
def mapSet (m : List (String × ℚ)) (k : String) (v : ℚ) : List (String × ℚ) :=
  if m.any (fun p => p.1 == k) then
    m.map (fun p => if p.1 == k then (k, v) else p)
  else m ++ [(k, v)]

/-- The additional-charges loop of `RateItem.calculateCharge`
(lines 87-92): each charge amount is computed against the clamped base
charge and written into the map under the charge's name. -/
def calcAdditional : List AdditionalCharge → ℚ → TripData → List (String × ℚ) →
    Except CalcError (List (String × ℚ))
  | [], _, _, acc => .ok acc
  | c :: cs, base, td, acc =>
    match c.calculate base td with
    | .error e => .error e
    | .ok amt => calcAdditional cs base td (mapSet acc c.name amt)

/-- `RateItem.calculateCharge(tripData)` (lines 38-107): check all
conditions, compute the raw base charge by rate type, clamp it to the
minimum charge, compute additional charges and the fuel adjustment against
the clamped base, and build the result with empty discount and surcharge
maps. -/
def RateItem.calculateCharge (item : RateItem) (td : TripData) :
    Except CalcError ChargeCalculation :=
  match evalAll item.conditions td with
  | .error e => .error e
  | .ok false => .error .conditionsNotMet
  | .ok true =>
    match rateBase item td with
    | .error e => .error e
    | .ok b0 =>
      let baseCharge := if b0 < item.minCharge then item.minCharge else b0
      match calcAdditional item.additionalCharges baseCharge td [] with
      | .error e => .error e
      | .ok additionalCharges =>
        .ok (mkChargeCalculation baseCharge additionalCharges
              (item.fuelAdjustment.calculate baseCharge) [] [])

/-- `RateItem.matchesCriteria(origin, destination, vehicleType)`
(lines 116-123): per key, the wildcard marker or exact string equality. -/
def RateItem.matchesCriteria (item : RateItem) (origin destination vehicleType : String) : Bool :=
  (item.origin == "*" || item.origin == origin) &&
  (item.destination == "*" || item.destination == destination) &&
  (item.vehicleType == "*" || item.vehicleType == vehicleType)

/-- `RateCard` (src/models/rate_item.js, lines 201-344): the ordered rule
list.  The authoring metadata (name, client, dates, status, audit fields)
is never consulted by `calculateRate` and is omitted. -/
structure RateCard where
  id : String
  rateItems : List RateItem
deriving DecidableEq

/-- `RateCard.calculateRate(tripData)` (lines 278-293): filter the items
by matching keys, throw when none match, otherwise delegate to the first
match in stored order. -/
def RateCard.calculateRate (card : RateCard) (td : TripData) :
    Except CalcError ChargeCalculation :=
  let applicableItems := card.rateItems.filter
    (fun item => item.matchesCriteria td.origin td.destination td.vehicleType)
  match applicableItems with
  | [] => .error (.noApplicableRule td.id)
  | rateItem :: _ => rateItem.calculateCharge td

/-! Concrete fixtures used to exercise the engine on the spec's worked
examples. -/

/-- A fuel adjustment that is switched off. -/
def faOff : FuelAdjustment := ⟨false, 0, 0, 0⟩

/-- The spec's clamping example: PER_KM rule with base rate 5 and minimum
charge 50. -/
def rateItemEx1 : RateItem := ⟨"*", "*", "*", .PER_KM, 5, 50, [], [], faOff⟩

/-- A trip of distance 8. -/
def tripEx1 : TripData := ⟨"T1", "A", "B", "TRUCK", 8, 0, 0, []⟩

/-- The calculation result for `rateItemEx1` on `tripEx1`. -/
def resEx1 : ChargeCalculation := mkChargeCalculation 50 [] 0 [] []

/-- A fully wildcarded fixed-rate rule. -/
def itemGeneric : RateItem := ⟨"*", "*", "*", .FIXED, 100, 0, [], [], faOff⟩

/-- A fully specific fixed-rate rule for the same lane as `tripEx3`. -/
def itemSpecific : RateItem := ⟨"A", "B", "TRUCK", .FIXED, 200, 0, [], [], faOff⟩

/-- A catalog holding the generic rule before the specific one. -/
def cardEx3 : RateCard := ⟨"CARD3", [itemGeneric, itemSpecific]⟩

/-- A trip matched by both rules of `cardEx3`. -/
def tripEx3 : TripData := ⟨"T3", "A", "B", "TRUCK", 1, 1, 1, []⟩

/-- A catalog with no rules at all. -/
def cardEmpty : RateCard := ⟨"CARD0", []⟩

/-- A trip priced against `cardEmpty`. -/
def tripEx4 : TripData := ⟨"T4", "X", "Y", "VAN", 1, 1, 1, []⟩

/-- The condition x > 10. -/
def condGTten : RateCondition := ⟨"x", .GREATER_THAN, "10"⟩

/-- A trip carrying x = 5, so that `condGTten` is not met. -/
def tripX5 : TripData := ⟨"T5", "A", "B", "VAN", 1, 1, 1, [("x", .num 5)]⟩

/-- The spec's percentage example: 10 percent of the base charge, no
conditions. -/
def acPct : AdditionalCharge := ⟨"LOADING_FEE", "LOADING", 10, true, []⟩

/-- The same magnitude gated by the unmet condition `condGTten`. -/
def acCond : AdditionalCharge := ⟨"NIGHT_FEE", "OTHER", 10, true, [condGTten]⟩

/-- An enabled fuel adjustment with a price decrease but a zero
adjustment factor. -/
def faDec : FuelAdjustment := ⟨true, 100, 90, 0⟩

/-- The spec's fuel example: reference 100, current 110, factor 0.5. -/
def faUp : FuelAdjustment := ⟨true, 100, 110, (1 : ℚ)/2⟩

/-- A condition on a parameter that `tripEx4` does not carry. -/
def condMissing : RateCondition := ⟨"cargoKind", .EQUALS, "FRAGILE"⟩

/-- A numeric comparison whose operand does not parse as a number. -/
def condBadOperand : RateCondition := ⟨"x", .GREATER_THAN, "abc"⟩

/-- A condition using an operator outside the enumeration. -/
def condUnknownOp : RateCondition := ⟨"x", .UNKNOWN "MATCHES", "5"⟩

/-- A fixed-rate rule gated by the condition x > 10. -/
def itemCondEx9 : RateItem := ⟨"*", "*", "*", .FIXED, 100, 0, [], [condGTten], faOff⟩

/-! Helper lemmas. -/

/-- Accumulating the second components with `foldl` is adding their sum. -/
theorem foldl_add_snd (l : List (String × ℚ)) (a : ℚ) :
    l.foldl (fun t p => t + p.2) a = a + (l.map Prod.snd).sum := by
  induction l generalizing a with
  | nil => simp
  | cons h t ih => simp only [List.foldl_cons, List.map_cons, List.sum_cons, ih]; ring

/-- Subtracting the second components with `foldl` is subtracting their
sum. -/
theorem foldl_sub_snd (l : List (String × ℚ)) (a : ℚ) :
    l.foldl (fun t p => t - p.2) a = a - (l.map Prod.snd).sum := by
  induction l generalizing a with
  | nil => simp
  | cons h t ih => simp only [List.foldl_cons, List.map_cons, List.sum_cons, ih]; ring

/-- The short-circuit conjunction succeeds with `true` exactly when every
condition in the list evaluates to `true`. -/
theorem evalAll_ok_true_iff (cs : List RateCondition) (td : TripData) :
    evalAll cs td = Except.ok true ↔ ∀ c ∈ cs, c.evaluate td = Except.ok true := by
  induction cs with
  | nil => simp [evalAll]
  | cons c cs ih =>
    cases h : c.evaluate td with
    | error e => simp [evalAll, h]
    | ok b =>
      cases b with
      | false => simp [evalAll, h]
      | true => simp only [evalAll, h, ih, List.mem_cons]; constructor
                · intro hall d hd
                  cases hd with
                  | inl hd => rw [hd]; exact h
                  | inr hd => exact hall d hd
                · intro hall d hd; exact hall d (Or.inr hd)

/-- Condition evaluation never throws the conditions-not-met error: its
only throw site is the unsupported-operator default branch. -/
theorem evaluate_ne_conditionsNotMet (c : RateCondition) (td : TripData) :
    c.evaluate td ≠ Except.error CalcError.conditionsNotMet := by
  unfold RateCondition.evaluate
  cases h : td.lookup c.parameter with
  | none => simp
  | some v => cases c.operator <;> simp

/-- Hence the conjunction over a condition list never throws it either. -/
theorem evalAll_ne_conditionsNotMet (cs : List RateCondition) (td : TripData) :
    evalAll cs td ≠ Except.error CalcError.conditionsNotMet := by
  induction cs with
  | nil => simp [evalAll]
  | cons c cs ih =>
    unfold evalAll
    cases h : c.evaluate td with
    | error e =>
      intro hc
      exact evaluate_ne_conditionsNotMet c td (by rw [h, ← hc])
    | ok b => cases b <;> simp [ih]

/-- An additional charge never throws the conditions-not-met error. -/
theorem calculate_ne_conditionsNotMet (ac : AdditionalCharge) (base : ℚ) (td : TripData) :
    ac.calculate base td ≠ Except.error CalcError.conditionsNotMet := by
  unfold AdditionalCharge.calculate
  cases h : evalAll ac.conditions td with
  | error e =>
    have he := evalAll_ne_conditionsNotMet ac.conditions td
    rw [h] at he
    simpa using he
  | ok b =>
    cases b with
    | false => simp
    | true => cases hp : ac.isPercentage <;> simp [hp]

/-- The additional-charges loop never throws the conditions-not-met
error. -/
theorem calcAdditional_ne_conditionsNotMet (cs : List AdditionalCharge) (base : ℚ)
    (td : TripData) (acc : List (String × ℚ)) :
    calcAdditional cs base td acc ≠ Except.error CalcError.conditionsNotMet := by
  induction cs generalizing acc with
  | nil => simp [calcAdditional]
  | cons c cs ih =>
    unfold calcAdditional
    cases h : c.calculate base td with
    | error e =>
      have he := calculate_ne_conditionsNotMet c base td
      rw [h] at he
      simpa using he
    | ok amt => simp [ih]

/-- The rate-type dispatch never throws the conditions-not-met error. -/
theorem rateBase_ne_conditionsNotMet (item : RateItem) (td : TripData) :
    rateBase item td ≠ Except.error CalcError.conditionsNotMet := by
  unfold rateBase
  cases item.rateType <;> simp

/-- When `find?` locates a first witness of the filter predicate, the
filtered list starts with that witness. -/
theorem filter_head_of_find (p : RateItem → Bool) (l : List RateItem) (r : RateItem)
    (h : l.find? p = some r) : ∃ t, l.filter p = r :: t := by
  induction l with
  | nil => simp [List.find?] at h
  | cons a l ih =>
    by_cases hp : p a
    · rw [List.find?_cons_of_pos _ hp] at h
      injection h with h
      subst h
      exact ⟨l.filter p, by rw [List.filter_cons_of_pos hp]⟩
    · rw [List.find?_cons_of_neg _ (by simpa using hp)] at h
      obtain ⟨t, ht⟩ := ih h
      exact ⟨t, by rw [List.filter_cons_of_neg (by simpa using hp), ht]⟩

/-! Claim theorems. -/

/-- C2: for every charge composition, the total computed once by the
constructor and stored in `totalCharge` equals base charge plus the sum of
all additional-charge amounts plus the fuel adjustment plus the sum of all
surcharge amounts minus the sum of all discount amounts, and `breakdown`
returns that stored total unchanged, without recomputation. -/
theorem totalCharge_formula_and_breakdown (baseCharge fuelAdjustment : ℚ)
    (additionalCharges discounts surcharges : List (String × ℚ)) :
    (mkChargeCalculation baseCharge additionalCharges fuelAdjustment
        discounts surcharges).totalCharge
      = baseCharge + (additionalCharges.map Prod.snd).sum + fuelAdjustment
        + (surcharges.map Prod.snd).sum - (discounts.map Prod.snd).sum
    ∧ (mkChargeCalculation baseCharge additionalCharges fuelAdjustment
        discounts surcharges).breakdown.totalCharge
      = (mkChargeCalculation baseCharge additionalCharges fuelAdjustment
        discounts surcharges).totalCharge := by
  constructor
  · simp only [mkChargeCalculation, calculateTotalCharge, foldl_add_snd, foldl_sub_snd]
  · rfl

/-- C4: when no rule of the catalog matches the trip's matching keys, rate
calculation fails with the no-applicable-rule error carrying the trip's
identifier. -/
theorem calculateRate_noApplicableRule (card : RateCard) (td : TripData)
    (h : ∀ item ∈ card.rateItems,
      item.matchesCriteria td.origin td.destination td.vehicleType = false) :
    card.calculateRate td = Except.error (CalcError.noApplicableRule td.id) := by
  unfold RateCard.calculateRate
  have hf : card.rateItems.filter
      (fun item => item.matchesCriteria td.origin td.destination td.vehicleType) = [] := by
    rw [List.filter_eq_nil_iff]
    intro a ha
    simp [h a ha]
  rw [hf]

/-- C4 witness: an empty catalog fails with the no-applicable-rule error
for trip T4. -/
theorem calculateRate_noApplicableRule_example :
    cardEmpty.calculateRate tripEx4 = Except.error (CalcError.noApplicableRule "T4") := by
  have h := calculateRate_noApplicableRule cardEmpty tripEx4 (by intro item hi; cases hi)
  exact h

/-- C5: an additional charge combines its conditions with logical AND;
if the conjunction comes out false it contributes exactly zero, and if it
comes out true it contributes base times magnitude over 100 under the
percentage flag and the magnitude as an absolute amount otherwise. -/
theorem additionalCharge_calculate_spec (ac : AdditionalCharge) (base : ℚ) (td : TripData) :
    (evalAll ac.conditions td = Except.ok true ↔
      ∀ c ∈ ac.conditions, c.evaluate td = Except.ok true)
    ∧ (evalAll ac.conditions td = Except.ok false →
      ac.calculate base td = Except.ok 0)
    ∧ (evalAll ac.conditions td = Except.ok true →
      ac.calculate base td =
        Except.ok (if ac.isPercentage then base * ac.value / 100 else ac.value)) := by
  refine ⟨evalAll_ok_true_iff ac.conditions td, ?_, ?_⟩
  · intro h
    unfold AdditionalCharge.calculate
    rw [h]
  · intro h
    unfold AdditionalCharge.calculate
    rw [h]
    cases hp : ac.isPercentage <;> simp [hp]

/-- C5 witness: magnitude 10 with the percentage flag on base 100
contributes 10, and the same component gated by the unmet condition
x > 10 contributes 0 on a trip with x = 5. -/
theorem additionalCharge_calculate_example :
    acPct.calculate 100 tripX5 = Except.ok 10 ∧
    acCond.calculate 100 tripX5 = Except.ok 0 := by
  constructor
  · have h := (additionalCharge_calculate_spec acPct 100 tripX5).2.2 (by decide)
    rw [h]
    norm_num [acPct]
  · exact (additionalCharge_calculate_spec acCond 100 tripX5).2.1 (by decide)

/-- C7: if the trip record has no field named by the condition's
parameter, evaluation returns false and never throws, for every operator
and operand. -/
theorem evaluate_missing_parameter_false (c : RateCondition) (td : TripData)
    (h : td.lookup c.parameter = none) : c.evaluate td = Except.ok false := by
  unfold RateCondition.evaluate
  rw [h]

/-- C7 witness: a condition on the absent field cargoKind evaluates to
false on trip T4. -/
theorem evaluate_missing_parameter_example :
    condMissing.evaluate tripEx4 = Except.ok false :=
  evaluate_missing_parameter_false condMissing tripEx4 (by decide)

/-- C9: if the conjunction of a rule's own conditions comes out false,
`calculateCharge` fails with the conditions-not-met error rather than
skipping the rule or returning a zero charge, whereas a charge component
whose conditions come out false silently contributes zero. -/
theorem calculateCharge_conditionsNotMet (item : RateItem) (td : TripData)
    (h : evalAll item.conditions td = Except.ok false) :
    item.calculateCharge td = Except.error CalcError.conditionsNotMet ∧
    ∀ (ac : AdditionalCharge) (base : ℚ), evalAll ac.conditions td = Except.ok false →
      ac.calculate base td = Except.ok 0 := by
  constructor
  · unfold RateItem.calculateCharge
    rw [h]
  · intro ac base hac
    unfold AdditionalCharge.calculate
    rw [hac]

/-- C9 witness: the rule gated by x > 10 fails with the conditions-not-met
error on the trip with x = 5, while the charge component gated the same
way contributes zero there. -/
theorem calculateCharge_conditionsNotMet_example :
    itemCondEx9.calculateCharge tripX5 = Except.error CalcError.conditionsNotMet ∧
    acCond.calculate 100 tripX5 = Except.ok 0 := by
  have h := calculateCharge_conditionsNotMet itemCondEx9 tripX5 (by decide)
  exact ⟨h.1, h.2 acCond 100 (by decide)⟩

/-- C1: whenever `calculateCharge` succeeds, the base charge in the result
is the per-rate-type base — FIXED the base rate as-is, PER_KM base rate
times the trip's distance, PER_KG base rate times weight, PER_CBM base
rate times volume, SLAB_BASED and ZONE_BASED the base rate as-is — raised
to the rule's minimum charge when it falls below it. -/
theorem calculateCharge_baseCharge_by_rateType (item : RateItem) (td : TripData)
    (res : ChargeCalculation) (h : item.calculateCharge td = Except.ok res) :
    (item.rateType = RateType.FIXED →
      res.baseCharge =
        if item.baseRate < item.minCharge then item.minCharge else item.baseRate)
    ∧ (item.rateType = RateType.PER_KM →
      res.baseCharge =
        if item.baseRate * td.distance < item.minCharge then item.minCharge
        else item.baseRate * td.distance)
    ∧ (item.rateType = RateType.PER_KG →
      res.baseCharge =
        if item.baseRate * td.weight < item.minCharge then item.minCharge
        else item.baseRate * td.weight)
    ∧ (item.rateType = RateType.PER_CBM →
      res.baseCharge =
        if item.baseRate * td.volume < item.minCharge then item.minCharge
        else item.baseRate * td.volume)
    ∧ (item.rateType = RateType.SLAB_BASED →
      res.baseCharge =
        if item.baseRate < item.minCharge then item.minCharge else item.baseRate)
    ∧ (item.rateType = RateType.ZONE_BASED →
      res.baseCharge =
        if item.baseRate < item.minCharge then item.minCharge else item.baseRate) := by
  unfold RateItem.calculateCharge at h
  cases hc : evalAll item.conditions td with
  | error e => rw [hc] at h; simp at h
  | ok b =>
    rw [hc] at h
    cases b with
    | false => simp at h
    | true =>
      cases hb : rateBase item td with
      | error e => rw [hb] at h; simp at h
      | ok b0 =>
        rw [hb] at h
        simp only [] at h
        cases ha : calcAdditional item.additionalCharges
            (if b0 < item.minCharge then item.minCharge else b0) td [] with
        | error e => rw [ha] at h; simp at h
        | ok adds =>
          rw [ha] at h
          simp only [Except.ok.injEq] at h
          have hbase : res.baseCharge =
              if b0 < item.minCharge then item.minCharge else b0 := by
            rw [← h]; rfl
          refine ⟨?_, ?_, ?_, ?_, ?_, ?_⟩ <;>
            (intro ht
             unfold rateBase at hb
             rw [ht] at hb
             simp only [Except.ok.injEq] at hb
             rw [hbase, hb])

/-- C1 witness: the spec's example rule, PER_KM at base rate 5 with
minimum charge 50, on a trip of distance 8 succeeds with base charge
clamped to 50. -/
theorem calculateCharge_baseCharge_example :
    rateItemEx1.calculateCharge tripEx1 = Except.ok resEx1 ∧ resEx1.baseCharge = 50 := by
  have hok : rateItemEx1.calculateCharge tripEx1 = Except.ok resEx1 := by
    norm_num [rateItemEx1, tripEx1, resEx1, RateItem.calculateCharge, evalAll, rateBase,
      calcAdditional, mkChargeCalculation, calculateTotalCharge, faOff,
      FuelAdjustment.calculate]
  have h := (calculateCharge_baseCharge_by_rateType rateItemEx1 tripEx1 resEx1 hok).2.1 rfl
  refine ⟨hok, ?_⟩
  rw [h]
  norm_num [rateItemEx1, tripEx1]

/-- C3: a rule matches exactly when each of its origin, destination and
vehicle-type keys is the wildcard marker or equals the trip's
corresponding field, and when the catalog's first match (in stored order,
regardless of specificity) is the rule r, the rate calculation is r's
charge calculation. -/
theorem rule_matching_and_first_selection :
    (∀ (item : RateItem) (o d v : String),
      item.matchesCriteria o d v = true ↔
        ((item.origin = "*" ∨ item.origin = o) ∧
         (item.destination = "*" ∨ item.destination = d) ∧
         (item.vehicleType = "*" ∨ item.vehicleType = v)))
    ∧ (∀ (card : RateCard) (td : TripData) (item : RateItem),
      item ∈ card.rateItems.filter
          (fun i => i.matchesCriteria td.origin td.destination td.vehicleType) ↔
        (item ∈ card.rateItems ∧
         item.matchesCriteria td.origin td.destination td.vehicleType = true))
    ∧ (∀ (card : RateCard) (td : TripData) (r : RateItem),
      card.rateItems.find?
          (fun item => item.matchesCriteria td.origin td.destination td.vehicleType)
        = some r →
      card.calculateRate td = r.calculateCharge td) := by
  refine ⟨?_, ?_, ?_⟩
  · intro item o d v
    simp [RateItem.matchesCriteria, and_assoc]
  · intro card td item
    exact List.mem_filter
  · intro card td r h
    obtain ⟨t, ht⟩ := filter_head_of_find _ _ _ h
    unfold RateCard.calculateRate
    rw [ht]

/-- C3 witness: in a catalog holding a fully wildcarded rule before a
fully specific one, a trip matched by both is priced by the wildcarded
first rule, while the specific rule also matches. -/
theorem rule_matching_first_selection_example :
    cardEx3.calculateRate tripEx3 = itemGeneric.calculateCharge tripEx3 ∧
    itemSpecific.matchesCriteria "A" "B" "TRUCK" = true := by
  constructor
  · exact rule_matching_and_first_selection.2.2 cardEx3 tripEx3 itemGeneric (by decide)
  · exact (rule_matching_and_first_selection.1 itemSpecific "A" "B" "TRUCK").mpr
      (by simp [itemSpecific])

/-- C6 counterexample: an enabled adjustment with reference price 100,
current price 90 (a price decrease) and adjustment factor 0 computes 0 on
base charge 200, which is not negative — so the adjustment's sign does not
always follow the sign of the price delta as the claim states. -/
theorem fuelAdjustment_sign_counterexample :
    faDec.enabled = true ∧ faDec.basePrice ≠ 0 ∧
    faDec.currentPrice - faDec.basePrice < 0 ∧
    ¬ faDec.calculate 200 < 0 := by
  refine ⟨rfl, by norm_num [faDec], by norm_num [faDec], ?_⟩
  norm_num [faDec, FuelAdjustment.calculate]

/-- C6 as amended: disabled or zero reference price gives 0; otherwise the
adjustment is base charge times the percentage fuel-price change times the
adjustment factor over 100; and when the reference price, the adjustment
factor and the base charge are all positive, the adjustment's sign equals
the sign of the price delta (negative exactly when the price decreased). -/
theorem fuelAdjustment_calculate_spec (fa : FuelAdjustment) (baseCharge : ℚ) :
    ((fa.enabled = false ∨ fa.basePrice = 0) → fa.calculate baseCharge = 0)
    ∧ (fa.enabled = true → fa.basePrice ≠ 0 →
      fa.calculate baseCharge =
        baseCharge * ((fa.currentPrice - fa.basePrice) / fa.basePrice * 100)
          * fa.adjustmentFactor / 100)
    ∧ (fa.enabled = true → 0 < fa.basePrice → 0 < fa.adjustmentFactor →
      0 < baseCharge →
      ((fa.calculate baseCharge < 0 ↔ fa.currentPrice < fa.basePrice) ∧
       (0 < fa.calculate baseCharge ↔ fa.basePrice < fa.currentPrice))) := by
  refine ⟨?_, ?_, ?_⟩
  · intro h
    unfold FuelAdjustment.calculate
    rcases h with h | h <;> simp [h]
  · intro he hb
    unfold FuelAdjustment.calculate
    simp [he, hb]
  · intro he hb hf hbase
    have hb0 : fa.basePrice ≠ 0 := ne_of_gt hb
    have hcalc : fa.calculate baseCharge
        = (fa.currentPrice - fa.basePrice)
          * (baseCharge * fa.adjustmentFactor / fa.basePrice) := by
      unfold FuelAdjustment.calculate
      simp only [he, Bool.not_true, Bool.false_or, beq_iff_eq, hb0, if_false]
      field_simp
      ring
    have hk : 0 < baseCharge * fa.adjustmentFactor / fa.basePrice :=
      div_pos (mul_pos hbase hf) hb
    rw [hcalc]
    constructor
    · constructor
      · intro h
        by_contra hcon
        push_neg at hcon
        nlinarith
      · intro h
        exact mul_neg_of_neg_of_pos (by linarith) hk
    · constructor
      · intro h
        by_contra hcon
        push_neg at hcon
        nlinarith
      · intro h
        exact mul_pos (by linarith) hk

/-- C6 witness: the spec's fuel example, reference 100, current 110,
factor one half, on base charge 200, computes 10, which is positive. -/
theorem fuelAdjustment_calculate_example :
    faUp.calculate 200 = 10 ∧ 0 < faUp.calculate 200 := by
  constructor
  · have h := (fuelAdjustment_calculate_spec faUp 200).2.1 rfl (by norm_num [faUp])
    rw [h]
    norm_num [faUp]
  · exact ((fuelAdjustment_calculate_spec faUp 200).2.2 rfl (by norm_num [faUp])
      (by norm_num [faUp]) (by norm_num)).2.mpr (by norm_num [faUp])

/-- C8 counterexample: with the parameter x present (value 5), the numeric
comparison x GREATER_THAN the unparsable operand abc evaluates to the
plain result false — no error of any kind is raised, contradicting the
claim that an unparsable numeric operand fails evaluation. -/
theorem evaluate_unparsable_operand_counterexample :
    tripX5.lookup "x" = some (Value.num 5) ∧ parseNum "abc" = none ∧
    condBadOperand.evaluate tripX5 = Except.ok false := by
  refine ⟨by decide, by decide, by decide⟩

/-- C8 as amended: for a present parameter, an unparsable numeric operand
makes the comparison operators and BETWEEN evaluate to false (the NaN
comparison) rather than fail, while an operator outside the supported
enumeration fails with the unsupported-operator error. -/
theorem evaluate_operand_operator_spec (c : RateCondition) (td : TripData) (v : Value)
    (h : td.lookup c.parameter = some v) :
    ((c.operator = ConditionOperator.GREATER_THAN ∨
      c.operator = ConditionOperator.LESS_THAN ∨
      c.operator = ConditionOperator.GREATER_THAN_EQUAL ∨
      c.operator = ConditionOperator.LESS_THAN_EQUAL) →
      parseNum c.value = none → c.evaluate td = Except.ok false)
    ∧ (c.operator = ConditionOperator.BETWEEN →
      (((splitOnComma c.value.toList).map (fun l => parseNumChars (trimChars l))).getD 0 none
          = none ∨
       ((splitOnComma c.value.toList).map (fun l => parseNumChars (trimChars l))).getD 1 none
          = none) →
      c.evaluate td = Except.ok false)
    ∧ (∀ s, c.operator = ConditionOperator.UNKNOWN s →
      c.evaluate td = Except.error (CalcError.unsupportedOperator s)) := by
  refine ⟨?_, ?_, ?_⟩
  · intro hop hval
    rcases hop with hop | hop | hop | hop <;>
      (unfold RateCondition.evaluate
       rw [h, hop]
       unfold numComp
       rw [hval]
       cases hv : v.toNum <;> simp)
  · intro hop hmn
    unfold RateCondition.evaluate
    rw [h, hop]
    simp only []
    rcases hmn with hmn | hmn <;> rw [hmn]
    · cases hv : v.toNum <;>
        cases hx : ((splitOnComma c.value.toList).map
          (fun l => parseNumChars (trimChars l))).getD 1 none <;> simp
    · cases hv : v.toNum <;>
        cases hx : ((splitOnComma c.value.toList).map
          (fun l => parseNumChars (trimChars l))).getD 0 none <;> simp
  · intro s hop
    unfold RateCondition.evaluate
    rw [h, hop]

/-- C8 witness: the unparsable operand abc under GREATER_THAN yields
false on the trip carrying x = 5, and the out-of-enumeration operator
MATCHES fails with the unsupported-operator error there. -/
theorem evaluate_operand_operator_example :
    condBadOperand.evaluate tripX5 = Except.ok false ∧
    condUnknownOp.evaluate tripX5 =
      Except.error (CalcError.unsupportedOperator "MATCHES") := by
  constructor
  · exact (evaluate_operand_operator_spec condBadOperand tripX5 (Value.num 5)
      (by decide)).1 (Or.inl rfl) (by decide)
  · exact (evaluate_operand_operator_spec condUnknownOp tripX5 (Value.num 5)
      (by decide)).2.2 "MATCHES" rfl

/-- C10: a rule whose own condition list is empty never fails with the
conditions-not-met error (the conjunction over an empty list is vacuously
true), and a charge component whose condition list is empty always
contributes its full amount, never zero-for-inapplicability. -/
theorem empty_conditions_vacuous (item : RateItem) (ac : AdditionalCharge)
    (td : TripData) (base : ℚ)
    (h1 : item.conditions = []) (h2 : ac.conditions = []) :
    item.calculateCharge td ≠ Except.error CalcError.conditionsNotMet ∧
    ac.calculate base td =
      Except.ok (if ac.isPercentage then base * ac.value / 100 else ac.value) := by
  constructor
  · unfold RateItem.calculateCharge
    rw [h1]
    simp only [evalAll]
    cases hb : rateBase item td with
    | error e =>
      have := rateBase_ne_conditionsNotMet item td
      rw [hb] at this
      simpa using this
    | ok b0 =>
      simp only []
      cases ha : calcAdditional item.additionalCharges
          (if b0 < item.minCharge then item.minCharge else b0) td [] with
      | error e =>
        have := calcAdditional_ne_conditionsNotMet item.additionalCharges
          (if b0 < item.minCharge then item.minCharge else b0) td []
        rw [ha] at this
        simpa using this
      | ok adds => simp
  · unfold AdditionalCharge.calculate
    rw [h2]
    simp only [evalAll]
    cases hp : ac.isPercentage <;> simp [hp]

/-- C10 witness: a condition-free rule succeeds without the
conditions-not-met error even on a trip with an empty open field bag, and
the condition-free 10-percent component contributes its full amount 10 on
base 100. -/
theorem empty_conditions_vacuous_example :
    rateItemEx1.calculateCharge tripEx1 ≠ Except.error CalcError.conditionsNotMet ∧
    acPct.calculate 100 tripEx1 = Except.ok 10 := by
  have h := empty_conditions_vacuous rateItemEx1 acPct tripEx1 100 rfl rfl
  refine ⟨h.1, ?_⟩
  rw [h.2]
  norm_num [acPct]

end Salem
